import Mathlib

/-!
Verification of the `indra_sdk` Python client (`src/sdk/python/indra_sdk/client.py`)
and the parameter-sweep example (`src/examples/python/parameter_sweep.py`).

Shallow embedding conventions:
* JSON-serializable Python values are the inductive `PyVal`; Python `dict`s are
  association lists with unique keys (Python dicts preserve insertion order and
  cannot hold duplicate keys; every dict reaching the code under test comes from
  a JSON parse or a dict literal, so the unique-key, no-aliasing model is exact).
* Raised Python exceptions are the inductive `PyExc`; fallible code returns
  `Except PyExc`.  The spec's error taxonomy maps onto Python exception classes:
  ValidationError = `ValueError`, RemoteError = `RuntimeError` raised by
  `_expect_ok`, TransportError = the exceptions `urllib` raises.
* The HTTP transport plus body-read plus `json.loads` inside
  `IndraClient._request` is an oracle `Request`: given method, path and optional
  JSON body it either raises some exception or yields a parsed JSON value.
-/

inductive PyVal : Type where
  | null : PyVal
  | boolV : Bool → PyVal
  | numV : ℚ → PyVal
  | strV : String → PyVal
  | listV : List PyVal → PyVal
  | dictV : List (String × PyVal) → PyVal

abbrev PyDict := List (String × PyVal)

/-- Python exceptions that the embedded code can raise.  Constructors carry the
exception message where the code under test inspects or produces one. -/
inductive PyExc : Type where
  | valueError (msg : String)
  | runtimeError (msg : String)
  | attributeError (msg : String)
  | typeError (msg : String)
  | keyError (key : String)
  | fileNotFoundError (msg : String)
  | transportError (msg : String)
  | jsonDecodeError (msg : String)
deriving DecidableEq

/-- Python `d.get(k)` / `k in d` backing lookup on an association-list dict:
first entry whose key matches. -/
def dictGet (d : PyDict) (k : String) : Option PyVal :=
  match d with
  | [] => none
  | (k', v) :: rest => if k' = k then some v else dictGet rest k

/-- Python `k in d`. -/
def containsKey (d : PyDict) (k : String) : Bool :=
  match d with
  | [] => false
  | (k', _) :: rest => if k' = k then true else containsKey rest k

/-- Python `d.get(k, default)`. -/
def dictGetD (d : PyDict) (k : String) (default : PyVal) : PyVal :=
  match dictGet d k with
  | some v => v
  | none => default

/-- Python `d[k] = v`: replace the value of an existing key in place (keeping
its position), otherwise append the new pair at the end. -/
def dictSet (d : PyDict) (k : String) (v : PyVal) : PyDict :=
  match d with
  | [] => [(k, v)]
  | (k', v') :: rest => if k' = k then (k, v) :: rest else (k', v') :: dictSet rest k v

/-- Python `d.setdefault(k, v)`'s effect on the dict: insert `(k, v)` at the end
when `k` is absent, otherwise leave the dict unchanged. -/
def dictSetdefault (d : PyDict) (k : String) (v : PyVal) : PyDict :=
  if containsKey d k then d else d ++ [(k, v)]

/-- Python `", ".join(xs)`. -/
def joinComma : List String → String
  | [] => ""
  | [s] => s
  | s :: rest => s ++ ", " ++ joinComma rest

/-- Python `str(value)` as applied by `_expect_ok` to the `message` field.
`str` of a string is the string itself; the response envelope declares
`message` to be a string when present, so the remaining renderings (which
abbreviate Python's `repr`-based output for containers) are never reached by
any claim. -/
def pyStr : PyVal → String
  | .strV s => s
  | .null => "None"
  | .boolV true => "True"
  | .boolV false => "False"
  | .numV q => toString q.num ++ (if q.den = 1 then "" else "/" ++ toString q.den)
  | .listV _ => "<list>"
  | .dictV _ => "<dict>"

/-- Python `value == "some string"` where `value` may be `None` (an absent
`.get` result): true exactly when the value is that string. -/
def pyEqStr (v : Option PyVal) (s : String) : Bool :=
  match v with
  | some (.strV t) => t = s
  | _ => false

/-- Outcome of `IndraClient._request`: the underlying `urlopen`, body read and
`json.loads` either raise or produce a parsed JSON value. -/
inductive ReqResult : Type where
  | exc (e : PyExc)
  | ok (v : PyVal)

/-- The transport oracle standing for `IndraClient._request`:
method → path → optional JSON body → outcome. -/
abbrev Request := String → String → Option PyVal → ReqResult

namespace IndraClient

/-- `IndraClient._require_keys(payload, keys, operation)`: collect the required
keys absent from the payload; raise `ValueError` naming the operation and the
missing keys when any are missing. -/
def require_keys (payload : PyDict) (keys : List String) (operation : String) :
    Except PyExc Unit :=
  let missing := keys.filter (fun k => !containsKey payload k)
  if missing.isEmpty then .ok ()
  else .error (.valueError (operation ++ " requires keys: " ++ joinComma missing))

/-- `IndraClient._expect_ok(response)`: on a dict whose `status` is the string
`"ok"`, return the dict with the `status` entry removed; otherwise raise
`RuntimeError(str(response.get("message", "Unknown error")))`.  Calling `.get`
on a non-dict raises `AttributeError`. -/
def expect_ok (response : PyVal) : Except PyExc PyVal :=
  match response with
  | .dictV entries =>
    if pyEqStr (dictGet entries "status") "ok" then
      .ok (.dictV (entries.filter (fun kv => kv.1 != "status")))
    else
      .error (.runtimeError (match dictGet entries "message" with
        | some m => pyStr m
        | none => "Unknown error"))
  | _ => .error (.attributeError "object has no attribute get")

/-- Shared tail of every non-health operation: a raised transport/parse
exception propagates, a parsed response goes through `_expect_ok`. -/
def handleResponse : ReqResult → Except PyExc PyVal
  | .exc e => .error e
  | .ok response => expect_ok response

/-- `IndraClient.health()`: any exception from `_request` yields `false`;
otherwise the result is `response.get("status") == "ok"`.  The `.get` on the
returned value happens outside the `try`, so a non-dict JSON body raises
`AttributeError` out of `health`. -/
def health (req : Request) : Except PyExc Bool :=
  match req "GET" "/health" none with
  | .exc _ => .ok false
  | .ok response =>
    match response with
    | .dictV entries => .ok (pyEqStr (dictGet entries "status") "ok")
    | _ => .error (.attributeError "object has no attribute get")

/-- `IndraClient.render(payload)`.  The returned pair is (result or raised
exception, final state of the caller's payload dict) — the second component
records the in-place `payload.setdefault("bitDepth", 8)`. -/
def render (req : Request) (payload : PyDict) : Except PyExc PyVal × PyDict :=
  match require_keys payload ["input", "output"] "render" with
  | .error e => (.error e, payload)
  | .ok _ =>
    let payload1 := dictSetdefault payload "bitDepth" (.numV 8)
    (handleResponse (req "POST" "/render" (some (.dictV payload1))), payload1)

/-- `IndraClient.simulate(payload)`. -/
def simulate (req : Request) (payload : PyDict) : Except PyExc PyVal × PyDict :=
  match require_keys payload ["input"] "simulate" with
  | .error e => (.error e, payload)
  | .ok _ => (handleResponse (req "POST" "/simulate" (some (.dictV payload))), payload)

/-- `IndraClient.capture(payload)`. -/
def capture (req : Request) (payload : PyDict) : Except PyExc PyVal × PyDict :=
  match require_keys payload ["input", "output"] "capture" with
  | .error e => (.error e, payload)
  | .ok _ => (handleResponse (req "POST" "/capture" (some (.dictV payload))), payload)

/-- `IndraClient.validate_manifest(payload)`: raise `ValueError` when neither
`manifest` nor `manifestPath` is a key of the payload, otherwise POST. -/
def validate_manifest (req : Request) (payload : PyDict) : Except PyExc PyVal × PyDict :=
  if !containsKey payload "manifest" && !containsKey payload "manifestPath" then
    (.error (.valueError "manifest validation requires \"manifest\" or \"manifestPath\"."), payload)
  else
    (handleResponse (req "POST" "/manifest/validate" (some (.dictV payload))), payload)

end IndraClient

/-! ## The parameter-sweep example (`src/examples/python/parameter_sweep.py`) -/

/-- `MANIFEST_PATH = BASE_DIR.parent / "public" / "sample-manifest.json"`,
written relative to the repository root. -/
def MANIFEST_PATH : String := "public/sample-manifest.json"

/-- `INPUT_IMAGE = BASE_DIR / "assets" / "sample-input.png"`. -/
def INPUT_IMAGE : String := "examples/assets/sample-input.png"

/-- `OUTPUT_DIR = BASE_DIR / "artifacts"`. -/
def OUTPUT_DIR : String := "examples/artifacts"

/-- The unique path handed out by `tempfile.NamedTemporaryFile` with prefix
`indra-manifest-` and suffix `.json`; freshness is modelled by a counter. -/
def tempName (n : Nat) : String := "indra-manifest-" ++ toString n ++ ".json"

/-- The two-decimal fixed-point rendering `f"{blend:.2f}"` used in the
per-point output filename (rounding ties of the rational model upward;
identical to Python's float formatting on the sweep's values). -/
def format2 (q : ℚ) : String :=
  let c : Int := round (q * 100)
  let a := c.natAbs
  (if c < 0 then "-" else "") ++ toString (a / 100) ++ "." ++
    (if a % 100 < 10 then "0" else "") ++ toString (a % 100)

/-- The id test in `mutate_manifest`'s loop: `preset.get("id") == "balanced-optics"`
on a preset already known to be a dict. -/
def idMatches (pe : PyDict) : Bool :=
  match dictGet pe "id" with
  | some (.strV s) => s = "balanced-optics"
  | _ => false

/-- Statement helper: whether a preset value is a dict whose `id` equals
`"balanced-optics"`. -/
def presetMatches (preset : PyVal) : Bool :=
  match preset with
  | .dictV pe => idMatches pe
  | _ => false

/-- Statement helper: the mapping stored under key `k`, or the empty mapping
when the key is absent (mirrors what `setdefault(k, {})` hands back on the
well-shaped documents of the data model). -/
def subDict (pe : PyDict) (k : String) : PyDict :=
  match dictGet pe k with
  | some (.dictV d) => d
  | _ => []

/-- Statement helper: is the value a dict? -/
def isDict : PyVal → Bool
  | .dictV _ => true
  | _ => false

/-- Statement helper: a matching preset whose `panels` (and, inside it,
`compositor`) is either absent or a dict, as the data model prescribes. -/
def panelsShapeOk : PyVal → Bool
  | .dictV pe =>
    match dictGet pe "panels" with
    | none => true
    | some (.dictV le) =>
      match dictGet le "compositor" with
      | none => true
      | some (.dictV _) => true
      | some _ => false
    | some _ => false
  | _ => false

/-- Statement helper: follow a chain of dict keys. -/
def getPath (v : PyVal) (ks : List String) : Option PyVal :=
  match ks with
  | [] => some v
  | k :: rest =>
    match v with
    | .dictV d =>
      match dictGet d k with
      | some w => getPath w rest
      | none => none
    | _ => none

/-- Run an `Except`-valued function over a list, stopping at the first raised
exception (the order of Python's `for` loop). -/
def mapExcept (f : α → Except PyExc β) : List α → Except PyExc (List β)
  | [] => .ok []
  | a :: rest =>
    match f a with
    | .error e => .error e
    | .ok b =>
      match mapExcept f rest with
      | .error e => .error e
      | .ok bs => .ok (b :: bs)

/-- The loop body of `mutate_manifest` on one preset:
`preset.setdefault("panels", {}).setdefault("compositor", {})["blend"] = blend`
when `preset.get("id") == "balanced-optics"`, a no-op otherwise.  `.get` on a
non-dict preset raises `AttributeError`; `.setdefault` on a non-dict `panels`
value raises `AttributeError`; item assignment on a non-dict `compositor`
value raises `TypeError`.  The in-place aliased mutation of the Python code is
rendered as the corresponding functional update. -/
def mutatePreset (blend : ℚ) (preset : PyVal) : Except PyExc PyVal :=
  match preset with
  | .dictV pe =>
    if idMatches pe then
      match dictGetD pe "panels" (.dictV []) with
      | .dictV le =>
        match dictGetD le "compositor" (.dictV []) with
        | .dictV co =>
          .ok (.dictV (dictSet (dictSetdefault pe "panels" (.dictV []))
            "panels" (.dictV (dictSet (dictSetdefault le "compositor" (.dictV []))
              "compositor" (.dictV (dictSet co "blend" (.numV blend)))))))
        | _ => .error (.typeError "object does not support item assignment")
      | _ => .error (.attributeError "object has no attribute setdefault")
    else .ok preset
  | _ => .error (.attributeError "object has no attribute get")

/-- The document transformation performed by `mutate_manifest` on the parsed
base manifest: iterate `data.get("controls", {}).get("presets", [])`, mutating
each matching preset in place.  When either `controls` or `presets` is absent
the loop runs over a detached default and the document is returned unchanged.
Iterating a non-list `presets` value follows Python:, an empty string or dict
iterates zero times, a non-empty one yields non-dict items whose `.get` raises
`AttributeError`, and other values are not iterable at all. -/
def mutateDoc (data : PyVal) (blend : ℚ) : Except PyExc PyVal :=
  match data with
  | .dictV de =>
    match dictGetD de "controls" (.dictV []) with
    | .dictV ce =>
      match dictGetD ce "presets" (.listV []) with
      | .listV ps =>
        match mapExcept (mutatePreset blend) ps with
        | .error e => .error e
        | .ok ps' =>
          if containsKey de "controls" && containsKey ce "presets" then
            .ok (.dictV (dictSet de "controls" (.dictV (dictSet ce "presets" (.listV ps')))))
          else .ok data
      | .strV s => if s = "" then .ok data else .error (.attributeError "object has no attribute get")
      | .dictV ds =>
        if ds.isEmpty then .ok data else .error (.attributeError "object has no attribute get")
      | _ => .error (.typeError "object is not iterable")
    | _ => .error (.attributeError "object has no attribute get")
  | _ => .error (.attributeError "object has no attribute get")

/-- The state the sweep threads through its loop: the file system restricted to
the JSON documents the sweep reads and writes (path ↦ parsed content), the rows
of the CSV report written so far, and the counter backing temp-name freshness. -/
structure SweepState : Type where
  files : List (String × PyVal)
  rows : List (List PyVal)
  nextTemp : Nat

/-- `mutate_manifest(blend)`: read and parse the base manifest, transform it,
and write the result to a fresh uniquely-named temporary file, returning that
file's path. -/
def mutate_manifest (st : SweepState) (blend : ℚ) : Except PyExc (String × SweepState) :=
  match dictGet st.files MANIFEST_PATH with
  | none => .error (.fileNotFoundError MANIFEST_PATH)
  | some data =>
    match mutateDoc data blend with
    | .error e => .error e
    | .ok doc =>
      .ok (tempName st.nextTemp,
        { st with files := dictSet st.files (tempName st.nextTemp) doc,
                  nextTemp := st.nextTemp + 1 })

/-- The payload literal `main` passes to `client.render` for one sweep point. -/
def renderPayload (blend : ℚ) (manifestPath : String) : PyDict :=
  [("input", .strV INPUT_IMAGE),
   ("output", .strV (OUTPUT_DIR ++ "/render_" ++ format2 blend ++ ".png")),
   ("manifest", .strV manifestPath),
   ("preset", .strV "balanced-optics")]

/-- Python `value[key]` on a parsed JSON value: `KeyError` when the key is
absent from a dict, `TypeError` when the value is not a dict. -/
def pyIndex (v : PyVal) (k : String) : Except PyExc PyVal :=
  match v with
  | .dictV d =>
    match dictGet d k with
    | some x => .ok x
    | none => .error (.keyError k)
  | _ => .error (.typeError "object is not subscriptable")

/-- `metrics = result["metrics"]` followed by the row literal
`[blend, metrics["indraIndex"], metrics["rimMean"], metrics["coherenceMean"]]`,
with the lookups performed in the source's left-to-right order. -/
def rowOf (blend : ℚ) (result : PyVal) : Except PyExc (List PyVal) :=
  match pyIndex result "metrics" with
  | .error e => .error e
  | .ok metrics =>
    match pyIndex metrics "indraIndex" with
    | .error e => .error e
    | .ok i =>
      match pyIndex metrics "rimMean" with
      | .error e => .error e
      | .ok r =>
        match pyIndex metrics "coherenceMean" with
        | .error e => .error e
        | .ok c => .ok [.numV blend, i, r, c]

/-- The `try` body of one sweep iteration after the temp manifest exists:
render, then extract the report row. -/
def pointResult (render : PyDict → Except PyExc PyVal) (blend : ℚ) (manifestPath : String) :
    Except PyExc (List PyVal) :=
  match render (renderPayload blend manifestPath) with
  | .error e => .error e
  | .ok result => rowOf blend result

/-- `path.unlink(missing_ok=True)`: remove every entry at the path; a missing
path makes this the identity, never an error. -/
def unlinkMissingOk (path : String) (files : List (String × PyVal)) :
    List (String × PyVal) :=
  files.filter (fun kv => kv.1 != path)

/-- One iteration of the sweep loop: produce the temp manifest, run the `try`
body, append the row on success, and in all cases where the `try` was entered
delete the temp manifest in the `finally` block.  `render` abstracts
`client.render`'s result (the fresh payload literal is never shared, so its
in-place default fill is invisible here). -/
def sweepStep (render : PyDict → Except PyExc PyVal) (st : SweepState) (blend : ℚ) :
    Except PyExc Unit × SweepState :=
  match mutate_manifest st blend with
  | .error e => (.error e, st)
  | .ok (path, st1) =>
    match pointResult render blend path with
    | .ok row =>
      (.ok (), { st1 with files := unlinkMissingOk path st1.files, rows := st1.rows ++ [row] })
    | .error e => (.error e, { st1 with files := unlinkMissingOk path st1.files })

/-- The `for blend in blends` loop: iterations run in list order and the first
exception aborts the remainder. -/
def runSweep (render : PyDict → Except PyExc PyVal) (blends : List ℚ) (st : SweepState) :
    Except PyExc Unit × SweepState :=
  match blends with
  | [] => (.ok (), st)
  | b :: rest =>
    match sweepStep render st b with
    | (.ok _, st1) => runSweep render rest st1
    | (.error e, st1) => (.error e, st1)

/-- The header row `["blend", "indra_index", "rim_mean", "coherence_mean"]`. -/
def headerRow : List PyVal :=
  [.strV "blend", .strV "indra_index", .strV "rim_mean", .strV "coherence_mean"]

/-- `blends = [0.3, 0.4, 0.5, 0.6, 0.7]`. -/
def sweepBlends : List ℚ := [3/10, 2/5, 1/2, 3/5, 7/10]

/-- `main()`: fail fast when the input image is missing or the health probe is
negative; otherwise truncate the report to the header row and run the sweep.
`inputExists` stands for `INPUT_IMAGE.exists()` and `healthy` for
`client.health()`. -/
def runMain (render : PyDict → Except PyExc PyVal) (inputExists healthy : Bool)
    (st : SweepState) : Except PyExc Unit × SweepState :=
  if !inputExists then
    (.error (.fileNotFoundError ("Input image missing: " ++ INPUT_IMAGE ++
      ". Create the file before running this example.")), st)
  else if !healthy then
    (.error (.runtimeError "Local Indra REST server is not reachable on http://127.0.0.1:8787"), st)
  else
    runSweep render sweepBlends { st with rows := [headerRow] }

/-- A needle string occurs contiguously inside a haystack string. -/
def strContains (hay needle : String) : Prop :=
  ∃ pre post : List Char, pre ++ needle.data ++ post = hay.data

/-- Client double for the C6 witness: every render returns the same metrics. -/
def renderDoubleC6 : PyDict → Except PyExc PyVal := fun _ =>
  .ok (.dictV [("metrics", .dictV
    [("indraIndex", .numV 1), ("rimMean", .numV 2), ("coherenceMean", .numV 3)])])

/-- Rows the C6 witness expects: blend first, then the doubled metrics. -/
def rowsDoubleC6 : Nat → List PyVal := fun i =>
  [.numV (sweepBlends.getD i 0), .numV 1, .numV 2, .numV 3]

/-- Two-preset document for the C7 witness: one matching preset with existing
panels/compositor data and extra fields, one non-matching preset. -/
def presetsW : List PyVal :=
  [.dictV [("id", .strV "balanced-optics"),
           ("panels", .dictV [("compositor", .dictV [("blend", .numV 0), ("gain", .numV 4)]),
                              ("lens", .numV 7)]),
           ("note", .strV "keep")],
   .dictV [("id", .strV "other"),
           ("panels", .dictV [("compositor", .dictV [("blend", .numV 9)])])]]

/-- The `controls` mapping of the C7 witness document. -/
def controlsW : PyDict := [("presets", .listV presetsW), ("extra", .numV 5)]

/-- The C7 witness document. -/
def docW : PyDict := [("controls", .dictV controlsW), ("version", .numV 1)]

/-- Document for the C10 witness: two matching presets, the first lacking
`panels` entirely, the second with `panels` but no `compositor`. -/
def presetsX : List PyVal :=
  [.dictV [("id", .strV "balanced-optics")],
   .dictV [("id", .strV "balanced-optics"), ("panels", .dictV [("mode", .strV "x")])]]

/-- The `controls` mapping of the C10 witness document. -/
def controlsX : PyDict := [("presets", .listV presetsX)]

/-- The C10 witness document. -/
def docX : PyDict := [("controls", .dictV controlsX)]

/-! ## Helper lemmas about the dict model -/

theorem dictGet_dictSet_self (d : PyDict) (k : String) (v : PyVal) :
    dictGet (dictSet d k v) k = some v := by
  induction d with
  | nil => simp [dictSet, dictGet]
  | cons kv rest ih =>
    by_cases h : kv.1 = k
    · simp [dictSet, h, dictGet]
    · simpa [dictSet, h, dictGet] using ih

theorem dictGet_dictSet_ne (d : PyDict) (k q : String) (v : PyVal) (h : q ≠ k) :
    dictGet (dictSet d k v) q = dictGet d q := by
  induction d with
  | nil => simp [dictSet, dictGet, Ne.symm h]
  | cons kv rest ih =>
    by_cases hk : kv.1 = k
    · simp [dictSet, hk, dictGet, Ne.symm h]
    · simp only [dictSet, hk, if_false, dictGet]
      by_cases hq : kv.1 = q <;> simp [hq, ih]

theorem containsKey_eq_isSome (d : PyDict) (k : String) :
    containsKey d k = (dictGet d k).isSome := by
  induction d with
  | nil => simp [containsKey, dictGet]
  | cons kv rest ih =>
    by_cases h : kv.1 = k <;> simp [containsKey, dictGet, h, ih]

theorem dictGet_eq_none_of_not_contains (d : PyDict) (k : String)
    (h : containsKey d k = false) : dictGet d k = none := by
  rw [containsKey_eq_isSome] at h
  cases hd : dictGet d k <;> simp [hd] at h ⊢

theorem containsKey_eq_true_of_get (d : PyDict) (k : String) (v : PyVal)
    (h : dictGet d k = some v) : containsKey d k = true := by
  rw [containsKey_eq_isSome, h]; rfl

theorem dictGet_append (d1 d2 : PyDict) (k : String) :
    dictGet (d1 ++ d2) k =
      match dictGet d1 k with
      | some v => some v
      | none => dictGet d2 k := by
  induction d1 with
  | nil => simp [dictGet]
  | cons kv rest ih =>
    by_cases h : kv.1 = k <;> simp [dictGet, h, ih]

theorem dictSetdefault_of_contains (d : PyDict) (k : String) (v : PyVal)
    (h : containsKey d k = true) : dictSetdefault d k v = d := by
  simp [dictSetdefault, h]

theorem dictSetdefault_of_not_contains (d : PyDict) (k : String) (v : PyVal)
    (h : containsKey d k = false) : dictSetdefault d k v = d ++ [(k, v)] := by
  simp [dictSetdefault, h]

theorem dictGet_setdefault_self_absent (d : PyDict) (k : String) (v : PyVal)
    (h : containsKey d k = false) : dictGet (dictSetdefault d k v) k = some v := by
  rw [dictSetdefault_of_not_contains d k v h, dictGet_append,
    dictGet_eq_none_of_not_contains d k h]
  simp [dictGet]

theorem dictGet_setdefault_ne (d : PyDict) (k q : String) (v : PyVal) (h : q ≠ k) :
    dictGet (dictSetdefault d k v) q = dictGet d q := by
  by_cases hc : containsKey d k
  · rw [dictSetdefault_of_contains d k v hc]
  · rw [dictSetdefault_of_not_contains d k v (by simpa using hc), dictGet_append]
    cases hd : dictGet d q <;> simp [dictGet, Ne.symm h]

theorem dictGet_setdefault_self (d : PyDict) (k : String) (v : PyVal) :
    dictGet (dictSetdefault d k v) k =
      match dictGet d k with
      | some w => some w
      | none => some v := by
  cases hd : dictGet d k with
  | some w =>
    rw [dictSetdefault_of_contains d k v (containsKey_eq_true_of_get d k w hd), hd]
  | none =>
    have hc : containsKey d k = false := by
      rw [containsKey_eq_isSome, hd]; rfl
    rw [dictGet_setdefault_self_absent d k v hc]

theorem dictSet_eq_self (d : PyDict) (k : String) (v : PyVal)
    (h : dictGet d k = some v) : dictSet d k v = d := by
  induction d with
  | nil => simp [dictGet] at h
  | cons kv rest ih =>
    rcases kv with ⟨k', v'⟩
    by_cases hk : k' = k
    · subst hk
      have hv : v' = v := by simpa [dictGet] using h
      subst hv
      simp [dictSet]
    · simp only [dictGet, hk, if_false] at h
      simp [dictSet, hk, ih h]

theorem dictGet_filterNe_self (d : PyDict) (s : String) :
    dictGet (d.filter (fun kv => kv.1 != s)) s = none := by
  induction d with
  | nil => simp [dictGet]
  | cons kv rest ih =>
    by_cases h : kv.1 = s
    · simpa [List.filter_cons, bne_iff_ne, h] using ih
    · simp [List.filter_cons, bne_iff_ne, h, dictGet, ih]

theorem dictGet_filterNe_ne (d : PyDict) (s k : String) (h : k ≠ s) :
    dictGet (d.filter (fun kv => kv.1 != s)) k = dictGet d k := by
  induction d with
  | nil => simp [dictGet]
  | cons kv rest ih =>
    by_cases hs : kv.1 = s
    · simp [List.filter_cons, bne_iff_ne, hs, dictGet, Ne.symm h, ih]
    · by_cases hk : kv.1 = k <;>
        simp [List.filter_cons, bne_iff_ne, hs, dictGet, hk, h, ih]

theorem unlinkMissingOk_get_self (path : String) (files : List (String × PyVal)) :
    dictGet (unlinkMissingOk path files) path = none :=
  dictGet_filterNe_self files path

theorem unlinkMissingOk_get_ne (path q : String) (files : List (String × PyVal))
    (h : q ≠ path) : dictGet (unlinkMissingOk path files) q = dictGet files q :=
  dictGet_filterNe_ne files path q h

theorem unlinkMissingOk_of_absent (path : String) (files : List (String × PyVal))
    (h : dictGet files path = none) : unlinkMissingOk path files = files := by
  induction files with
  | nil => rfl
  | cons kv rest ih =>
    by_cases hk : kv.1 = path
    · simp [dictGet, hk] at h
    · simp only [dictGet, hk, if_false] at h
      have hr := ih h
      simp only [unlinkMissingOk] at hr ⊢
      simp [List.filter_cons, bne_iff_ne, hk, hr]

theorem unlinkMissingOk_dictSet_fresh (path : String) (files : List (String × PyVal))
    (v : PyVal) (h : dictGet files path = none) :
    unlinkMissingOk path (dictSet files path v) = files := by
  induction files with
  | nil => simp [dictSet, unlinkMissingOk, List.filter_cons]
  | cons kv rest ih =>
    by_cases hk : kv.1 = path
    · simp [dictGet, hk] at h
    · simp only [dictGet, hk, if_false] at h
      have hr := ih h
      simp only [unlinkMissingOk] at hr ⊢
      simp [dictSet, hk, List.filter_cons, bne_iff_ne, hr]

theorem pyEqStr_true_iff (v : Option PyVal) (s : String) :
    pyEqStr v s = true ↔ v = some (.strV s) := by
  cases v with
  | none => simp [pyEqStr]
  | some w => cases w <;> simp [pyEqStr]

theorem strContains_intro (hay needle : String) (pre post : List Char)
    (h : pre ++ needle.data ++ post = hay.data) : strContains hay needle :=
  ⟨pre, post, h⟩

theorem require_keys_pair_ok (payload : PyDict) (op k1 k2 : String)
    (h1 : containsKey payload k1 = true) (h2 : containsKey payload k2 = true) :
    IndraClient.require_keys payload [k1, k2] op = .ok () := by
  simp [IndraClient.require_keys, List.filter, h1, h2]

theorem require_keys_single_ok (payload : PyDict) (op k1 : String)
    (h1 : containsKey payload k1 = true) :
    IndraClient.require_keys payload [k1] op = .ok () := by
  simp [IndraClient.require_keys, List.filter, h1]

example :
    IndraClient.expect_ok (.dictV [("status", .strV "error"), ("message", .strV "boom")]) =
      .error (.runtimeError "boom") := rfl

example :
    IndraClient.expect_ok (.dictV [("status", .strV "ok"), ("metrics", .numV 3)]) =
      .ok (.dictV [("metrics", .numV 3)]) := rfl

example :
    (IndraClient.render (fun _ _ _ => .ok (.dictV [("status", .strV "ok")]))
      [("input", .strV "a"), ("output", .strV "b")]).2 =
      [("input", .strV "a"), ("output", .strV "b"), ("bitDepth", .numV 8)] := rfl

example :
    IndraClient.health (fun _ _ _ => .ok (.listV [])) =
      .error (.attributeError "object has no attribute get") := rfl

example :
    (IndraClient.render (fun _ _ _ => .exc (.transportError "x")) [("input", .strV "a")]).1 =
      .error (.valueError "render requires keys: output") := rfl

example :
    mutateDoc (.dictV [("controls", .dictV [("presets", .listV
      [.dictV [("id", .strV "balanced-optics")],
       .dictV [("id", .strV "other"), ("panels", .dictV [])]])])]) (1/2) =
    .ok (.dictV [("controls", .dictV [("presets", .listV
      [.dictV [("id", .strV "balanced-optics"),
               ("panels", .dictV [("compositor", .dictV [("blend", .numV (1/2))])])],
       .dictV [("id", .strV "other"), ("panels", .dictV [])]])])]) := rfl

example :
    (runMain (fun _ => .ok (.dictV [("metrics", .dictV
        [("indraIndex", .numV 1), ("rimMean", .numV 2), ("coherenceMean", .numV 3)])]))
      true true ⟨[(MANIFEST_PATH, .dictV [])], [], 0⟩).2.rows =
      headerRow ::
        (sweepBlends.map (fun b => [.numV b, .numV 1, .numV 2, .numV 3])) := rfl

/-! ## Claim theorems -/

/-- Claim C1: for every parsed JSON response object handled by a non-health
operation, a `status` field that is absent or not `"ok"` raises a RemoteError
(`RuntimeError`) whose message is the response's `message` field when present
(the envelope declares it a string) and the placeholder `"Unknown error"`
otherwise; a `status` of `"ok"` returns the response with exactly the `status`
field removed and every other field unchanged; and all four operations feed
their parsed response through this same discrimination (`_expect_ok`). -/
theorem claim_C1_status_discrimination (entries : PyDict) :
    (∀ m : String, dictGet entries "status" ≠ some (.strV "ok") →
        dictGet entries "message" = some (.strV m) →
        IndraClient.expect_ok (.dictV entries) = .error (.runtimeError m)) ∧
    (dictGet entries "status" ≠ some (.strV "ok") →
        dictGet entries "message" = none →
        IndraClient.expect_ok (.dictV entries) = .error (.runtimeError "Unknown error")) ∧
    (dictGet entries "status" = some (.strV "ok") →
        ∃ res : PyDict, IndraClient.expect_ok (.dictV entries) = .ok (.dictV res) ∧
          dictGet res "status" = none ∧
          (∀ k : String, k ≠ "status" → dictGet res k = dictGet entries k)) ∧
    (∀ (response : PyVal) (payload : PyDict),
      (containsKey payload "input" = true → containsKey payload "output" = true →
        (IndraClient.render (fun _ _ _ => .ok response) payload).1 =
          IndraClient.expect_ok response) ∧
      (containsKey payload "input" = true →
        (IndraClient.simulate (fun _ _ _ => .ok response) payload).1 =
          IndraClient.expect_ok response) ∧
      (containsKey payload "input" = true → containsKey payload "output" = true →
        (IndraClient.capture (fun _ _ _ => .ok response) payload).1 =
          IndraClient.expect_ok response) ∧
      ((containsKey payload "manifest" = true ∨ containsKey payload "manifestPath" = true) →
        (IndraClient.validate_manifest (fun _ _ _ => .ok response) payload).1 =
          IndraClient.expect_ok response)) := by
  refine ⟨?_, ?_, ?_, ?_⟩
  · intro m hne hmsg
    have hf : pyEqStr (dictGet entries "status") "ok" = false := by
      rw [← Bool.not_eq_true, pyEqStr_true_iff]; exact hne
    simp [IndraClient.expect_ok, hf, hmsg, pyStr]
  · intro hne hmsg
    have hf : pyEqStr (dictGet entries "status") "ok" = false := by
      rw [← Bool.not_eq_true, pyEqStr_true_iff]; exact hne
    simp [IndraClient.expect_ok, hf, hmsg]
  · intro hst
    have ht : pyEqStr (dictGet entries "status") "ok" = true :=
      (pyEqStr_true_iff _ _).mpr hst
    exact ⟨entries.filter (fun kv => kv.1 != "status"),
      by simp [IndraClient.expect_ok, ht],
      dictGet_filterNe_self entries "status",
      fun k hk => dictGet_filterNe_ne entries "status" k hk⟩
  · intro response payload
    refine ⟨?_, ?_, ?_, ?_⟩
    · intro h1 h2
      simp [IndraClient.render, require_keys_pair_ok payload "render" "input" "output" h1 h2,
        IndraClient.handleResponse]
    · intro h1
      simp [IndraClient.simulate, require_keys_single_ok payload "simulate" "input" h1,
        IndraClient.handleResponse]
    · intro h1 h2
      simp [IndraClient.capture, require_keys_pair_ok payload "capture" "input" "output" h1 h2,
        IndraClient.handleResponse]
    · intro hv
      rcases hv with h | h <;> simp [IndraClient.validate_manifest, h, IndraClient.handleResponse]

/-- Witness for C1 at concrete responses and payloads. -/
theorem claim_C1_status_discrimination_witness :
    IndraClient.expect_ok (.dictV [("status", .strV "error"), ("message", .strV "boom")]) =
      .error (.runtimeError "boom") ∧
    IndraClient.expect_ok (.dictV [("other", .numV 1)]) =
      .error (.runtimeError "Unknown error") ∧
    (∃ res : PyDict,
      IndraClient.expect_ok (.dictV [("status", .strV "ok"), ("metrics", .numV 2)]) =
        .ok (.dictV res) ∧ dictGet res "status" = none ∧
      (∀ k : String, k ≠ "status" →
        dictGet res k = dictGet [("status", .strV "ok"), ("metrics", .numV 2)] k)) ∧
    (IndraClient.render (fun _ _ _ => .ok (.dictV [("status", .strV "error")]))
        [("input", .strV "a"), ("output", .strV "b")]).1 =
      IndraClient.expect_ok (.dictV [("status", .strV "error")]) :=
  ⟨(claim_C1_status_discrimination [("status", .strV "error"), ("message", .strV "boom")]).1
      "boom" (by simp [dictGet]) rfl,
   (claim_C1_status_discrimination [("other", .numV 1)]).2.1 (by simp [dictGet]) rfl,
   (claim_C1_status_discrimination [("status", .strV "ok"), ("metrics", .numV 2)]).2.2.1 rfl,
   ((claim_C1_status_discrimination []).2.2.2 (.dictV [("status", .strV "error")])
      [("input", .strV "a"), ("output", .strV "b")]).1 rfl rfl⟩

/-- Claim C2: every non-health operation called on a payload lacking a
required key (render: `input`, `output`; simulate: `input`; capture: `input`,
`output`; validateManifest: both `manifest` and `manifestPath` absent) raises
a ValidationError (`ValueError`) whose message names the operation (for
`validate_manifest` the message's fixed phrasing "manifest validation") and
the missing key name(s); the result is the same for every transport oracle,
so no network I/O can have been attempted, and the check depends only on the
payload's key set, never on its values. -/
theorem claim_C2_missing_keys_validation (payload : PyDict) :
    ((containsKey payload "input" = false ∨ containsKey payload "output" = false) →
      ∃ msg, (∀ req : Request, (IndraClient.render req payload).1 = .error (.valueError msg)) ∧
        strContains msg "render" ∧
        (containsKey payload "input" = false → strContains msg "input") ∧
        (containsKey payload "output" = false → strContains msg "output")) ∧
    (containsKey payload "input" = false →
      ∃ msg, (∀ req : Request, (IndraClient.simulate req payload).1 = .error (.valueError msg)) ∧
        strContains msg "simulate" ∧ strContains msg "input") ∧
    ((containsKey payload "input" = false ∨ containsKey payload "output" = false) →
      ∃ msg, (∀ req : Request, (IndraClient.capture req payload).1 = .error (.valueError msg)) ∧
        strContains msg "capture" ∧
        (containsKey payload "input" = false → strContains msg "input") ∧
        (containsKey payload "output" = false → strContains msg "output")) ∧
    (containsKey payload "manifest" = false → containsKey payload "manifestPath" = false →
      ∃ msg, (∀ req : Request,
          (IndraClient.validate_manifest req payload).1 = .error (.valueError msg)) ∧
        strContains msg "manifest validation" ∧
        strContains msg "manifest" ∧ strContains msg "manifestPath") := by
  refine ⟨?_, ?_, ?_, ?_⟩
  · intro hmiss
    cases h1 : containsKey payload "input" <;> cases h2 : containsKey payload "output"
    · exact ⟨"render" ++ " requires keys: " ++ joinComma ["input", "output"],
        fun req => by simp [IndraClient.render, IndraClient.require_keys, List.filter, h1, h2],
        strContains_intro _ _ [] " requires keys: input, output".data (by decide),
        fun _ => strContains_intro _ _ "render requires keys: ".data ", output".data (by decide),
        fun _ => strContains_intro _ _ "render requires keys: input, ".data [] (by decide)⟩
    · exact ⟨"render" ++ " requires keys: " ++ joinComma ["input"],
        fun req => by simp [IndraClient.render, IndraClient.require_keys, List.filter, h1, h2],
        strContains_intro _ _ [] " requires keys: input".data (by decide),
        fun _ => strContains_intro _ _ "render requires keys: ".data [] (by decide),
        fun hh => Bool.noConfusion hh⟩
    · exact ⟨"render" ++ " requires keys: " ++ joinComma ["output"],
        fun req => by simp [IndraClient.render, IndraClient.require_keys, List.filter, h1, h2],
        strContains_intro _ _ [] " requires keys: output".data (by decide),
        fun hh => Bool.noConfusion hh,
        fun _ => strContains_intro _ _ "render requires keys: ".data [] (by decide)⟩
    · rcases hmiss with h | h
      · exact absurd (h1.symm.trans h) (by decide)
      · exact absurd (h2.symm.trans h) (by decide)
  · intro h1
    exact ⟨"simulate" ++ " requires keys: " ++ joinComma ["input"],
      fun req => by simp [IndraClient.simulate, IndraClient.require_keys, List.filter, h1],
      strContains_intro _ _ [] " requires keys: input".data (by decide),
      strContains_intro _ _ "simulate requires keys: ".data [] (by decide)⟩
  · intro hmiss
    cases h1 : containsKey payload "input" <;> cases h2 : containsKey payload "output"
    · exact ⟨"capture" ++ " requires keys: " ++ joinComma ["input", "output"],
        fun req => by simp [IndraClient.capture, IndraClient.require_keys, List.filter, h1, h2],
        strContains_intro _ _ [] " requires keys: input, output".data (by decide),
        fun _ => strContains_intro _ _ "capture requires keys: ".data ", output".data (by decide),
        fun _ => strContains_intro _ _ "capture requires keys: input, ".data [] (by decide)⟩
    · exact ⟨"capture" ++ " requires keys: " ++ joinComma ["input"],
        fun req => by simp [IndraClient.capture, IndraClient.require_keys, List.filter, h1, h2],
        strContains_intro _ _ [] " requires keys: input".data (by decide),
        fun _ => strContains_intro _ _ "capture requires keys: ".data [] (by decide),
        fun hh => Bool.noConfusion hh⟩
    · exact ⟨"capture" ++ " requires keys: " ++ joinComma ["output"],
        fun req => by simp [IndraClient.capture, IndraClient.require_keys, List.filter, h1, h2],
        strContains_intro _ _ [] " requires keys: output".data (by decide),
        fun hh => Bool.noConfusion hh,
        fun _ => strContains_intro _ _ "capture requires keys: ".data [] (by decide)⟩
    · rcases hmiss with h | h
      · exact absurd (h1.symm.trans h) (by decide)
      · exact absurd (h2.symm.trans h) (by decide)
  · intro h1 h2
    exact ⟨"manifest validation requires \"manifest\" or \"manifestPath\".",
      fun req => by simp [IndraClient.validate_manifest, h1, h2],
      strContains_intro _ _ [] " requires \"manifest\" or \"manifestPath\".".data (by decide),
      strContains_intro _ _ [] " validation requires \"manifest\" or \"manifestPath\".".data
        (by decide),
      strContains_intro _ _ "manifest validation requires \"manifest\" or \"".data "\".".data
        (by decide)⟩

/-- Witness for C2 on the empty payload, which misses every required key. -/
theorem claim_C2_missing_keys_validation_witness :
    (∃ msg, (∀ req : Request, (IndraClient.render req []).1 = .error (.valueError msg)) ∧
      strContains msg "render" ∧
      (containsKey [] "input" = false → strContains msg "input") ∧
      (containsKey [] "output" = false → strContains msg "output")) ∧
    (∃ msg, (∀ req : Request,
        (IndraClient.validate_manifest req []).1 = .error (.valueError msg)) ∧
      strContains msg "manifest validation" ∧
      strContains msg "manifest" ∧ strContains msg "manifestPath") :=
  ⟨(claim_C2_missing_keys_validation []).1 (Or.inl rfl),
   (claim_C2_missing_keys_validation []).2.2.2 rfl rfl⟩

/-- Claim C3 (code bug): the spec requires `render` to leave the caller's
payload object unchanged, but `payload.setdefault("bitDepth", 8)` mutates the
caller's dict in place.  At the concrete payload `{"input": ..., "output": ...}`
(no `bitDepth`), the payload dict after the call has gained a `bitDepth: 8`
entry, so it differs from the dict the caller passed in. -/
theorem claim_C3_render_mutates_caller_payload :
    (IndraClient.render (fun _ _ _ => .ok (.dictV [("status", .strV "ok")]))
        [("input", .strV "in.png"), ("output", .strV "out.png")]).2 =
      [("input", .strV "in.png"), ("output", .strV "out.png"), ("bitDepth", .numV 8)] ∧
    ([("input", .strV "in.png"), ("output", .strV "out.png")] : PyDict) ≠
      [("input", .strV "in.png"), ("output", .strV "out.png"), ("bitDepth", .numV 8)] :=
  ⟨rfl, fun h => absurd (congrArg List.length h) (by decide)⟩

/-- Claim C4 (code bug): the spec says `health()` never raises and returns
`false` on any unexpected body, but `response.get("status")` is evaluated
outside the `try` block, so a successful request whose body parses to a JSON
value that is not an object — here the JSON array `[]` — raises
`AttributeError` out of `health()` instead of returning `false`. -/
theorem claim_C4_health_raises_on_nondict_body :
    IndraClient.health (fun _ _ _ => .ok (.listV [])) =
      .error (.attributeError "object has no attribute get") ∧
    (∀ e : PyExc, IndraClient.health (fun _ _ _ => .exc e) = .ok false) ∧
    (∀ entries : PyDict,
      IndraClient.health (fun _ _ _ => .ok (.dictV entries)) =
        .ok (pyEqStr (dictGet entries "status") "ok")) :=
  ⟨rfl, fun _ => rfl, fun _ => rfl⟩

/-- Claim C8: with `input` and `output` present, `render` transmits exactly
`payload` after `setdefault("bitDepth", 8)`: when `bitDepth` was absent the
transmitted body maps `bitDepth` to `8` and agrees with the payload on every
other key; when the payload already specifies a `bitDepth` value the
transmitted body is the payload itself, unchanged. -/
theorem claim_C8_render_bitDepth_default (payload : PyDict)
    (h1 : containsKey payload "input" = true) (h2 : containsKey payload "output" = true) :
    (∀ req : Request, (IndraClient.render req payload).1 =
        IndraClient.handleResponse (req "POST" "/render"
          (some (.dictV (dictSetdefault payload "bitDepth" (.numV 8)))))) ∧
    (containsKey payload "bitDepth" = false →
      dictGet (dictSetdefault payload "bitDepth" (.numV 8)) "bitDepth" = some (.numV 8) ∧
      (∀ k : String, k ≠ "bitDepth" →
        dictGet (dictSetdefault payload "bitDepth" (.numV 8)) k = dictGet payload k)) ∧
    (containsKey payload "bitDepth" = true →
      dictSetdefault payload "bitDepth" (.numV 8) = payload) := by
  refine ⟨?_, ?_, ?_⟩
  · intro req
    simp [IndraClient.render, require_keys_pair_ok payload "render" "input" "output" h1 h2]
  · intro hb
    exact ⟨dictGet_setdefault_self_absent payload "bitDepth" (.numV 8) hb,
      fun k hk => dictGet_setdefault_ne payload "bitDepth" k (.numV 8) hk⟩
  · intro hb
    exact dictSetdefault_of_contains payload "bitDepth" (.numV 8) hb

/-- Witness for C8: one payload without `bitDepth`, one with `bitDepth: 16`. -/
theorem claim_C8_render_bitDepth_default_witness :
    dictGet (dictSetdefault [("input", .strV "a"), ("output", .strV "b")]
        "bitDepth" (.numV 8)) "bitDepth" = some (.numV 8) ∧
    dictSetdefault [("input", .strV "a"), ("output", .strV "b"), ("bitDepth", .numV 16)]
        "bitDepth" (.numV 8) =
      [("input", .strV "a"), ("output", .strV "b"), ("bitDepth", .numV 16)] :=
  ⟨((claim_C8_render_bitDepth_default
      [("input", .strV "a"), ("output", .strV "b")] rfl rfl).2.1 rfl).1,
   (claim_C8_render_bitDepth_default
      [("input", .strV "a"), ("output", .strV "b"), ("bitDepth", .numV 16)] rfl rfl).2.2 rfl⟩

/-- Claim C9: when `input` or `output` is missing, `render` raises its
ValidationError with the caller's payload dict left exactly as it was — the
`bitDepth` default has not been applied on the error path. -/
theorem claim_C9_render_validation_atomic (req : Request) (payload : PyDict)
    (h : containsKey payload "input" = false ∨ containsKey payload "output" = false) :
    ∃ msg, IndraClient.render req payload = (.error (.valueError msg), payload) := by
  cases h1 : containsKey payload "input" <;> cases h2 : containsKey payload "output"
  · exact ⟨"render" ++ " requires keys: " ++ joinComma ["input", "output"],
      by simp [IndraClient.render, IndraClient.require_keys, List.filter, h1, h2]⟩
  · exact ⟨"render" ++ " requires keys: " ++ joinComma ["input"],
      by simp [IndraClient.render, IndraClient.require_keys, List.filter, h1, h2]⟩
  · exact ⟨"render" ++ " requires keys: " ++ joinComma ["output"],
      by simp [IndraClient.render, IndraClient.require_keys, List.filter, h1, h2]⟩
  · rcases h with hh | hh
    · exact absurd (h1.symm.trans hh) (by decide)
    · exact absurd (h2.symm.trans hh) (by decide)

/-- Witness for C9 at a payload missing `output`. -/
theorem claim_C9_render_validation_atomic_witness :
    ∃ msg, IndraClient.render (fun _ _ _ => .ok (.dictV [("status", .strV "ok")]))
        [("input", .strV "a")] = (.error (.valueError msg), [("input", .strV "a")]) :=
  claim_C9_render_validation_atomic (fun _ _ _ => .ok (.dictV [("status", .strV "ok")]))
    [("input", .strV "a")] (Or.inr rfl)

theorem tempName_ne_manifest (n : Nat) : tempName n ≠ MANIFEST_PATH := by
  intro h
  have hd := congrArg String.data h
  simp only [tempName, MANIFEST_PATH] at hd
  rw [String.data_append, String.data_append] at hd
  have h1 : "indra-manifest-".data = 'i' :: "ndra-manifest-".data := rfl
  rw [h1] at hd
  have h2 : ('i' :: "ndra-manifest-".data ++ (toString n).data ++ ".json".data).head? =
      some 'i' := rfl
  rw [hd] at h2
  exact absurd h2 (by decide)

theorem sweepStep_ok (render : PyDict → Except PyExc PyVal) (st : SweepState) (b : ℚ)
    (D doc : PyVal) (row : List PyVal)
    (hman : dictGet st.files MANIFEST_PATH = some D)
    (hdoc : mutateDoc D b = .ok doc)
    (hfresh : dictGet st.files (tempName st.nextTemp) = none)
    (hrow : pointResult render b (tempName st.nextTemp) = .ok row) :
    sweepStep render st b = (.ok (), ⟨st.files, st.rows ++ [row], st.nextTemp + 1⟩) := by
  have hm : mutate_manifest st b = .ok (tempName st.nextTemp,
      { st with files := dictSet st.files (tempName st.nextTemp) doc,
                nextTemp := st.nextTemp + 1 }) := by
    simp [mutate_manifest, hman, hdoc]
  simp only [sweepStep, hm, hrow]
  rw [unlinkMissingOk_dictSet_fresh _ _ _ hfresh]

theorem sweepStep_err (render : PyDict → Except PyExc PyVal) (st : SweepState) (b : ℚ)
    (D doc : PyVal) (e : PyExc)
    (hman : dictGet st.files MANIFEST_PATH = some D)
    (hdoc : mutateDoc D b = .ok doc)
    (hfresh : dictGet st.files (tempName st.nextTemp) = none)
    (hrow : pointResult render b (tempName st.nextTemp) = .error e) :
    sweepStep render st b = (.error e, ⟨st.files, st.rows, st.nextTemp + 1⟩) := by
  have hm : mutate_manifest st b = .ok (tempName st.nextTemp,
      { st with files := dictSet st.files (tempName st.nextTemp) doc,
                nextTemp := st.nextTemp + 1 }) := by
    simp [mutate_manifest, hman, hdoc]
  simp only [sweepStep, hm, hrow]
  rw [unlinkMissingOk_dictSet_fresh _ _ _ hfresh]

theorem runSweep_spec (blends : List ℚ) (render : PyDict → Except PyExc PyVal)
    (st : SweepState) (D : PyVal) (k : Nat) (rowsF : Nat → List PyVal)
    (hman : dictGet st.files MANIFEST_PATH = some D)
    (hfresh : ∀ n : Nat, dictGet st.files (tempName n) = none)
    (hk : k ≤ blends.length)
    (hdoc : ∀ i, i < blends.length → ∃ doc, mutateDoc D (blends.getD i 0) = .ok doc)
    (hsucc : ∀ i, i < k →
      pointResult render (blends.getD i 0) (tempName (st.nextTemp + i)) = .ok (rowsF i))
    (hfail : k < blends.length →
      ∃ e, pointResult render (blends.getD k 0) (tempName (st.nextTemp + k)) = .error e) :
    (runSweep render blends st).2.files = st.files ∧
    (runSweep render blends st).2.rows = st.rows ++ (List.range k).map rowsF ∧
    (k = blends.length → (runSweep render blends st).1 = .ok ()) ∧
    (k < blends.length → ∃ e, (runSweep render blends st).1 = .error e) := by
  induction blends generalizing st k rowsF with
  | nil =>
    have hk0 : k = 0 := Nat.le_zero.mp hk
    subst hk0
    refine ⟨rfl, by simp [runSweep], fun _ => rfl, fun h => absurd h (by simp)⟩
  | cons b rest ih =>
    obtain ⟨doc0, hdoc0⟩ := hdoc 0 (by simp)
    rw [List.getD_cons_zero] at hdoc0
    cases k with
    | zero =>
      obtain ⟨e, he⟩ := hfail (by simp)
      rw [List.getD_cons_zero, Nat.add_zero] at he
      have hstep := sweepStep_err render st b D doc0 e hman hdoc0 (hfresh _) he
      have hrun : runSweep render (b :: rest) st = (.error e, ⟨st.files, st.rows, st.nextTemp + 1⟩) := by
        simp only [runSweep, hstep]
      refine ⟨by rw [hrun], by simp [hrun], fun h => absurd h (by simp),
        fun _ => ⟨e, by rw [hrun]⟩⟩
    | succ k' =>
      have hs0 := hsucc 0 (Nat.succ_pos k')
      rw [List.getD_cons_zero, Nat.add_zero] at hs0
      have hstep := sweepStep_ok render st b D doc0 (rowsF 0) hman hdoc0 (hfresh _) hs0
      have hrun : runSweep render (b :: rest) st =
          runSweep render rest ⟨st.files, st.rows ++ [rowsF 0], st.nextTemp + 1⟩ := by
        simp only [runSweep, hstep]
      have ihres := ih ⟨st.files, st.rows ++ [rowsF 0], st.nextTemp + 1⟩ k' (fun i => rowsF (i + 1))
        hman hfresh (by simpa using hk)
        (fun i hi => by
          have hx := hdoc (i + 1) (by simpa using Nat.succ_lt_succ hi)
          rwa [List.getD_cons_succ] at hx)
        (fun i hi => by
          have hx := hsucc (i + 1) (Nat.succ_lt_succ hi)
          rw [List.getD_cons_succ] at hx
          have harg : st.nextTemp + (i + 1) = st.nextTemp + 1 + i := by omega
          rwa [harg] at hx)
        (fun hlt => by
          have hx := hfail (Nat.succ_lt_succ hlt)
          rw [List.getD_cons_succ] at hx
          have harg : st.nextTemp + (k' + 1) = st.nextTemp + 1 + k' := by omega
          rwa [harg] at hx)
      obtain ⟨hf, hr, hok, herr⟩ := ihres
      refine ⟨by rw [hrun]; exact hf, ?_, ?_, ?_⟩
      · rw [hrun, hr]
        simp [List.range_succ_eq_map, List.map_map, Function.comp, List.append_assoc]
      · intro hlen
        rw [hrun]
        exact hok (by simpa using hlen)
      · intro hlt
        rw [hrun]
        exact herr (by simpa using hlt)

theorem rowOf_shape (b : ℚ) (v : PyVal) (row : List PyVal) (h : rowOf b v = .ok row) :
    ∃ t, row = .numV b :: t := by
  unfold rowOf at h
  split at h
  · cases h
  · split at h
    · cases h
    · split at h
      · cases h
      · split at h
        · cases h
        · exact ⟨_, (Except.ok.inj h).symm⟩

theorem pointResult_shape (render : PyDict → Except PyExc PyVal) (b : ℚ) (path : String)
    (row : List PyVal) (h : pointResult render b path = .ok row) :
    ∃ t, row = .numV b :: t := by
  unfold pointResult at h
  split at h
  · cases h
  · exact rowOf_shape _ _ _ h

/-- Claim C5: whatever the outcome of the render call (success or any raised
exception), after the sweep iteration the temporary manifest file written for
that point no longer exists on disk — the `finally` block covers every exit
path of the `try` — and unlinking with `missing_ok=True` on an already-missing
path is the identity rather than an error. -/
theorem claim_C5_temp_file_cleanup (render : PyDict → Except PyExc PyVal)
    (st : SweepState) (b : ℚ) :
    (∀ (path : String) (st1 : SweepState), mutate_manifest st b = .ok (path, st1) →
      dictGet (sweepStep render st b).2.files path = none) ∧
    (∀ (path : String) (files : List (String × PyVal)),
      dictGet files path = none → unlinkMissingOk path files = files) := by
  refine ⟨?_, fun path files h => unlinkMissingOk_of_absent path files h⟩
  intro path st1 h
  simp only [sweepStep, h]
  cases hpr : pointResult render b path with
  | ok row => simp [unlinkMissingOk_get_self]
  | error e => simp [unlinkMissingOk_get_self]

/-- Witness for C5: a state holding only the base manifest, a render double
that raises; the temp file for the point is gone afterwards. -/
theorem claim_C5_temp_file_cleanup_witness :
    (∃ st1 : SweepState,
      mutate_manifest ⟨[(MANIFEST_PATH, .dictV [])], [], 0⟩ (1/2) = .ok (tempName 0, st1)) ∧
    dictGet (sweepStep (fun _ => .error (.runtimeError "boom"))
        ⟨[(MANIFEST_PATH, .dictV [])], [], 0⟩ (1/2)).2.files (tempName 0) = none :=
  ⟨⟨_, rfl⟩,
   (claim_C5_temp_file_cleanup (fun _ => .error (.runtimeError "boom"))
      ⟨[(MANIFEST_PATH, .dictV [])], [], 0⟩ (1/2)).1 (tempName 0) _ rfl⟩

/-- Claim C6: the sweep report is the fixed header row followed by exactly one
data row per successfully completed sweep point, in the order of the
configured blend sequence (each data row starts with that point's blend
value); when every point succeeds the sweep completes normally, and when
point `k` fails (after the first `k` succeeded) the sweep raises immediately:
the report keeps the rows of the first `k` points, unchanged, and gains no row
for point `k` or any later point. -/
theorem claim_C6_report_rows_and_fail_fast (render : PyDict → Except PyExc PyVal)
    (st : SweepState) (D : PyVal) (k : Nat) (rowsF : Nat → List PyVal)
    (hman : dictGet st.files MANIFEST_PATH = some D)
    (hfresh : ∀ n : Nat, dictGet st.files (tempName n) = none)
    (hk : k ≤ sweepBlends.length)
    (hdoc : ∀ i, i < sweepBlends.length → ∃ doc, mutateDoc D (sweepBlends.getD i 0) = .ok doc)
    (hsucc : ∀ i, i < k →
      pointResult render (sweepBlends.getD i 0) (tempName (st.nextTemp + i)) = .ok (rowsF i))
    (hfail : k < sweepBlends.length →
      ∃ e, pointResult render (sweepBlends.getD k 0) (tempName (st.nextTemp + k)) = .error e) :
    (runMain render true true st).2.rows = headerRow :: (List.range k).map rowsF ∧
    (∀ i, i < k → ∃ t, rowsF i = .numV (sweepBlends.getD i 0) :: t) ∧
    (k = sweepBlends.length → (runMain render true true st).1 = .ok ()) ∧
    (k < sweepBlends.length → ∃ e, (runMain render true true st).1 = .error e) := by
  have hmain : runMain render true true st =
      runSweep render sweepBlends ⟨st.files, [headerRow], st.nextTemp⟩ := by
    simp [runMain]
  have hspec := runSweep_spec sweepBlends render ⟨st.files, [headerRow], st.nextTemp⟩ D k rowsF
    hman hfresh hk hdoc hsucc hfail
  obtain ⟨_, hr, hok, herr⟩ := hspec
  refine ⟨?_, ?_, ?_, ?_⟩
  · rw [hmain, hr]; rfl
  · exact fun i hi => pointResult_shape render _ _ _ (hsucc i hi)
  · intro hlen; rw [hmain]; exact hok hlen
  · intro hlt; rw [hmain]; exact herr hlt

/-- Witness for C6: all five configured points succeed against the double and
the report is the header plus five rows in blend order. -/
theorem claim_C6_report_rows_and_fail_fast_witness :
    (runMain renderDoubleC6 true true ⟨[(MANIFEST_PATH, .dictV [])], [], 0⟩).2.rows =
      headerRow :: (List.range 5).map rowsDoubleC6 ∧
    (runMain renderDoubleC6 true true ⟨[(MANIFEST_PATH, .dictV [])], [], 0⟩).1 = .ok () := by
  have h := claim_C6_report_rows_and_fail_fast renderDoubleC6
    ⟨[(MANIFEST_PATH, .dictV [])], [], 0⟩ (.dictV []) 5 rowsDoubleC6
    rfl
    (fun n => by simp [dictGet, (tempName_ne_manifest n).symm])
    (by decide)
    (fun i hi => ⟨.dictV [], rfl⟩)
    (fun i hi => by interval_cases i <;> rfl)
    (fun h5 => absurd h5 (by decide))
  exact ⟨h.1, h.2.2.1 rfl⟩

theorem panelsShapeOk_cases (pe : PyDict) (hs : panelsShapeOk (.dictV pe) = true) :
    dictGet pe "panels" = none ∨
    ∃ le, dictGet pe "panels" = some (.dictV le) ∧
      (dictGet le "compositor" = none ∨
        ∃ co, dictGet le "compositor" = some (.dictV co)) := by
  simp only [panelsShapeOk] at hs
  split at hs
  · exact Or.inl (by assumption)
  · next le heq =>
    split at hs
    · exact Or.inr ⟨le, heq, Or.inl (by assumption)⟩
    · next co heq2 => exact Or.inr ⟨le, heq, Or.inr ⟨co, heq2⟩⟩
    · cases hs
  · cases hs

theorem mutatePreset_match (b : ℚ) (pe : PyDict)
    (hid : idMatches pe = true) (hs : panelsShapeOk (.dictV pe) = true) :
    mutatePreset b (.dictV pe) = .ok (.dictV
      (dictSet (dictSetdefault pe "panels" (.dictV [])) "panels"
        (.dictV (dictSet (dictSetdefault (subDict pe "panels") "compositor" (.dictV []))
          "compositor" (.dictV (dictSet (subDict (subDict pe "panels") "compositor")
            "blend" (.numV b))))))) := by
  rcases panelsShapeOk_cases pe hs with hp | ⟨le, hp, hcc⟩
  · have hsub : subDict pe "panels" = [] := by simp [subDict, hp]
    simp [mutatePreset, hid, dictGetD, hp, hsub, subDict, dictGet]
  · have hsub : subDict pe "panels" = le := by simp [subDict, hp]
    rcases hcc with hcp | ⟨co, hcp⟩
    · have hsubc : subDict le "compositor" = [] := by simp [subDict, hcp]
      simp [mutatePreset, hid, dictGetD, hp, hcp, hsub, hsubc]
    · have hsubc : subDict le "compositor" = co := by simp [subDict, hcp]
      simp [mutatePreset, hid, dictGetD, hp, hcp, hsub, hsubc]

theorem mutatePreset_nomatch (b : ℚ) (p : PyVal) (hd : isDict p = true)
    (hm : presetMatches p = false) : mutatePreset b p = .ok p := by
  cases p with
  | dictV pe =>
    simp only [presetMatches] at hm
    simp [mutatePreset, hm]
  | null => cases hd
  | boolV x => cases hd
  | numV x => cases hd
  | strV x => cases hd
  | listV x => cases hd

theorem mutatePreset_match_facts (b : ℚ) (pe : PyDict)
    (hid : idMatches pe = true) (hs : panelsShapeOk (.dictV pe) = true) :
    ∃ pe' : PyDict, mutatePreset b (.dictV pe) = .ok (.dictV pe') ∧
      (∀ k, k ≠ "panels" → dictGet pe' k = dictGet pe k) ∧
      ∃ le' : PyDict, dictGet pe' "panels" = some (.dictV le') ∧
        (∀ k, k ≠ "compositor" → dictGet le' k = dictGet (subDict pe "panels") k) ∧
        ∃ co' : PyDict, dictGet le' "compositor" = some (.dictV co') ∧
          (∀ k, k ≠ "blend" →
            dictGet co' k = dictGet (subDict (subDict pe "panels") "compositor") k) ∧
          dictGet co' "blend" = some (.numV b) := by
  refine ⟨_, mutatePreset_match b pe hid hs,
    fun k hk => ?_,
    _, dictGet_dictSet_self _ _ _,
    fun k hk => ?_,
    _, dictGet_dictSet_self _ _ _,
    fun k hk => ?_,
    dictGet_dictSet_self _ _ _⟩
  · rw [dictGet_dictSet_ne _ _ _ _ hk, dictGet_setdefault_ne _ _ _ _ hk]
  · rw [dictGet_dictSet_ne _ _ _ _ hk, dictGet_setdefault_ne _ _ _ _ hk]
  · rw [dictGet_dictSet_ne _ _ _ _ hk]

theorem mapExcept_ok_of_forall (f : PyVal → Except PyExc PyVal) (l : List PyVal)
    (h : ∀ j, j < l.length → ∃ y, f (l.getD j .null) = .ok y) :
    ∃ l' : List PyVal, mapExcept f l = .ok l' ∧ l'.length = l.length ∧
      ∀ j, j < l.length → f (l.getD j .null) = .ok (l'.getD j .null) := by
  induction l with
  | nil => exact ⟨[], rfl, rfl, fun j hj => absurd hj (by simp)⟩
  | cons a rest ih =>
    obtain ⟨y, hy⟩ := h 0 (by simp)
    rw [List.getD_cons_zero] at hy
    obtain ⟨l', hl', hlen, hpt⟩ := ih (fun j hj => by
      have hx := h (j + 1) (by simpa using Nat.succ_lt_succ hj)
      rwa [List.getD_cons_succ] at hx)
    refine ⟨y :: l', ?_, by simp [hlen], fun j hj => ?_⟩
    · simp [mapExcept, hy, hl']
    · cases j with
      | zero => simpa using hy
      | succ j' =>
        have hj' : j' < rest.length := by simpa using hj
        simpa using hpt j' hj'

theorem mapExcept_id_of_forall (f : PyVal → Except PyExc PyVal) (l : List PyVal)
    (h : ∀ j, j < l.length → f (l.getD j .null) = .ok (l.getD j .null)) :
    mapExcept f l = .ok l := by
  induction l with
  | nil => rfl
  | cons a rest ih =>
    have h0 := h 0 (by simp)
    rw [List.getD_cons_zero] at h0
    have hr := ih (fun j hj => by
      have hx := h (j + 1) (by simpa using Nat.succ_lt_succ hj)
      rwa [List.getD_cons_succ] at hx)
    simp [mapExcept, h0, hr]

theorem mutateDoc_unfold (de ce : PyDict) (ps ps' : List PyVal) (b : ℚ)
    (hc : dictGet de "controls" = some (.dictV ce))
    (hp : dictGet ce "presets" = some (.listV ps))
    (hmap : mapExcept (mutatePreset b) ps = .ok ps') :
    mutateDoc (.dictV de) b =
      .ok (.dictV (dictSet de "controls" (.dictV (dictSet ce "presets" (.listV ps'))))) := by
  have h1 := containsKey_eq_true_of_get de "controls" (.dictV ce) hc
  have h2 := containsKey_eq_true_of_get ce "presets" (.listV ps) hp
  simp [mutateDoc, dictGetD, hc, hp, hmap, h1, h2]

theorem mutateDoc_pointwise (de ce : PyDict) (ps : List PyVal) (b : ℚ)
    (hc : dictGet de "controls" = some (.dictV ce))
    (hp : dictGet ce "presets" = some (.listV ps))
    (hshape : ∀ j, j < ps.length → isDict (ps.getD j .null) = true)
    (hpanels : ∀ j, j < ps.length → presetMatches (ps.getD j .null) = true →
      panelsShapeOk (ps.getD j .null) = true) :
    ∃ ps' : List PyVal,
      mutateDoc (.dictV de) b =
        .ok (.dictV (dictSet de "controls" (.dictV (dictSet ce "presets" (.listV ps'))))) ∧
      ps'.length = ps.length ∧
      ∀ j, j < ps.length → mutatePreset b (ps.getD j .null) = .ok (ps'.getD j .null) := by
  have hz : ∀ j, j < ps.length → ∃ y, mutatePreset b (ps.getD j .null) = .ok y := by
    intro j hj
    have hD := hshape j hj
    cases hm : presetMatches (ps.getD j .null) with
    | false => exact ⟨_, mutatePreset_nomatch b _ hD hm⟩
    | true =>
      cases hgd : ps.getD j .null with
      | dictV pe =>
        rw [hgd] at hm
        simp only [presetMatches] at hm
        obtain ⟨pe', hpe', -⟩ := mutatePreset_match_facts b pe hm (by
          have hq := hpanels j hj (by rw [hgd]; simpa [presetMatches] using hm)
          rwa [hgd] at hq)
        exact ⟨_, hpe'⟩
      | null => rw [hgd] at hD; simp [isDict] at hD
      | boolV x => rw [hgd] at hD; simp [isDict] at hD
      | numV x => rw [hgd] at hD; simp [isDict] at hD
      | strV x => rw [hgd] at hD; simp [isDict] at hD
      | listV x => rw [hgd] at hD; simp [isDict] at hD
  obtain ⟨ps', hmap, hlen, hpt⟩ := mapExcept_ok_of_forall (mutatePreset b) ps hz
  exact ⟨ps', mutateDoc_unfold de ce ps ps' b hc hp hmap, hlen, hpt⟩

theorem sweepStep_preserves_manifest (render : PyDict → Except PyExc PyVal)
    (st : SweepState) (b : ℚ) :
    dictGet (sweepStep render st b).2.files MANIFEST_PATH =
      dictGet st.files MANIFEST_PATH := by
  unfold sweepStep
  cases hm : mutate_manifest st b with
  | error e => rfl
  | ok pr =>
    unfold mutate_manifest at hm
    split at hm
    · cases hm
    · split at hm
      · cases hm
      · have hpr := (Except.ok.inj hm).symm
        subst hpr
        have hne : MANIFEST_PATH ≠ tempName st.nextTemp :=
          Ne.symm (tempName_ne_manifest st.nextTemp)
        cases hpt : pointResult render b (tempName st.nextTemp) with
        | ok row =>
          simp only [hpt]
          rw [unlinkMissingOk_get_ne _ _ _ hne, dictGet_dictSet_ne _ _ _ _ hne]
        | error e =>
          simp only [hpt]
          rw [unlinkMissingOk_get_ne _ _ _ hne, dictGet_dictSet_ne _ _ _ _ hne]

theorem runSweep_preserves_manifest (render : PyDict → Except PyExc PyVal)
    (blends : List ℚ) (st : SweepState) :
    dictGet (runSweep render blends st).2.files MANIFEST_PATH =
      dictGet st.files MANIFEST_PATH := by
  induction blends generalizing st with
  | nil => rfl
  | cons b rest ih =>
    have hstep := sweepStep_preserves_manifest render st b
    unfold runSweep
    cases hs : sweepStep render st b with
    | mk out st1 =>
      rw [hs] at hstep
      cases out with
      | ok u => exact (ih st1).trans hstep
      | error e => exact hstep

theorem isDict_exists (v : PyVal) (h : isDict v = true) : ∃ pe : PyDict, v = .dictV pe := by
  cases v with
  | dictV pe => exact ⟨pe, rfl⟩
  | null => simp [isDict] at h
  | boolV x => simp [isDict] at h
  | numV x => simp [isDict] at h
  | strV x => simp [isDict] at h
  | listV x => simp [isDict] at h

/-- Claim C7: on a document of the data-model shape (top-level dict whose
`controls` is a dict whose `presets` is a list of dicts, matching presets
well-shaped), the derived document differs from the original only in the
`blend` field under the `panels`/`compositor` mapping of the presets with id
`"balanced-optics"`: the top level agrees outside `controls`, `controls`
agrees outside `presets`, the presets list keeps its length, non-matching
presets are returned untouched, and a matching preset agrees with the
original outside `panels`/`compositor`/`blend` while `blend` becomes the
sweep value.  When no preset matches, the derived document equals the
original.  Moreover the sweep never modifies the on-disk base manifest. -/
theorem claim_C7_mutation_scoped (de ce : PyDict) (ps : List PyVal) (b : ℚ)
    (hc : dictGet de "controls" = some (.dictV ce))
    (hp : dictGet ce "presets" = some (.listV ps))
    (hshape : ∀ j, j < ps.length → isDict (ps.getD j .null) = true)
    (hpanels : ∀ j, j < ps.length → presetMatches (ps.getD j .null) = true →
      panelsShapeOk (ps.getD j .null) = true) :
    (∃ ps' : List PyVal,
      mutateDoc (.dictV de) b =
        .ok (.dictV (dictSet de "controls" (.dictV (dictSet ce "presets" (.listV ps'))))) ∧
      (∀ k, k ≠ "controls" →
        dictGet (dictSet de "controls" (.dictV (dictSet ce "presets" (.listV ps')))) k =
          dictGet de k) ∧
      (∀ k, k ≠ "presets" → dictGet (dictSet ce "presets" (.listV ps')) k = dictGet ce k) ∧
      ps'.length = ps.length ∧
      (∀ j, j < ps.length →
        (presetMatches (ps.getD j .null) = false → ps'.getD j .null = ps.getD j .null) ∧
        (presetMatches (ps.getD j .null) = true →
          ∃ pe pe' : PyDict, ps.getD j .null = .dictV pe ∧ ps'.getD j .null = .dictV pe' ∧
            (∀ k, k ≠ "panels" → dictGet pe' k = dictGet pe k) ∧
            ∃ le' : PyDict, dictGet pe' "panels" = some (.dictV le') ∧
              (∀ k, k ≠ "compositor" → dictGet le' k = dictGet (subDict pe "panels") k) ∧
              ∃ co' : PyDict, dictGet le' "compositor" = some (.dictV co') ∧
                (∀ k, k ≠ "blend" →
                  dictGet co' k = dictGet (subDict (subDict pe "panels") "compositor") k) ∧
                dictGet co' "blend" = some (.numV b)))) ∧
    ((∀ j, j < ps.length → presetMatches (ps.getD j .null) = false) →
      mutateDoc (.dictV de) b = .ok (.dictV de)) ∧
    (∀ (render : PyDict → Except PyExc PyVal) (blends : List ℚ) (st : SweepState),
      dictGet (runSweep render blends st).2.files MANIFEST_PATH =
        dictGet st.files MANIFEST_PATH) := by
  refine ⟨?_, ?_, fun render blends st => runSweep_preserves_manifest render blends st⟩
  · obtain ⟨ps', hdoc, hlen, hpt⟩ := mutateDoc_pointwise de ce ps b hc hp hshape hpanels
    refine ⟨ps', hdoc, fun k hk => dictGet_dictSet_ne _ _ _ _ hk,
      fun k hk => dictGet_dictSet_ne _ _ _ _ hk, hlen, fun j hj => ⟨?_, ?_⟩⟩
    · intro hm
      have hx := hpt j hj
      rw [mutatePreset_nomatch b _ (hshape j hj) hm] at hx
      exact (Except.ok.inj hx).symm
    · intro hm
      obtain ⟨pe, hgd⟩ := isDict_exists _ (hshape j hj)
      have hid : idMatches pe = true := by
        rw [hgd] at hm; simpa [presetMatches] using hm
      have hsOK : panelsShapeOk (.dictV pe) = true := by
        have hq := hpanels j hj hm
        rwa [hgd] at hq
      obtain ⟨pe', hpe', hframe, le', hple, hframe2, co', hcle, hframe3, hblend⟩ :=
        mutatePreset_match_facts b pe hid hsOK
      have hpt' := hpt j hj
      rw [hgd, hpe'] at hpt'
      exact ⟨pe, pe', hgd, (Except.ok.inj hpt').symm, hframe,
        le', hple, hframe2, co', hcle, hframe3, hblend⟩
  · intro hnm
    have hmap : mapExcept (mutatePreset b) ps = .ok ps :=
      mapExcept_id_of_forall _ _ (fun j hj => mutatePreset_nomatch b _ (hshape j hj) (hnm j hj))
    rw [mutateDoc_unfold de ce ps ps b hc hp hmap,
      dictSet_eq_self ce "presets" (.listV ps) hp,
      dictSet_eq_self de "controls" (.dictV ce) hc]

/-- Witness for C7 at the concrete two-preset document and blend 1/2. -/
theorem claim_C7_mutation_scoped_witness :
    (∃ ps' : List PyVal,
      mutateDoc (.dictV docW) (1/2) =
        .ok (.dictV (dictSet docW "controls"
          (.dictV (dictSet controlsW "presets" (.listV ps'))))) ∧
      (∀ k, k ≠ "controls" →
        dictGet (dictSet docW "controls"
          (.dictV (dictSet controlsW "presets" (.listV ps')))) k = dictGet docW k) ∧
      (∀ k, k ≠ "presets" →
        dictGet (dictSet controlsW "presets" (.listV ps')) k = dictGet controlsW k) ∧
      ps'.length = presetsW.length ∧
      (∀ j, j < presetsW.length →
        (presetMatches (presetsW.getD j .null) = false →
          ps'.getD j .null = presetsW.getD j .null) ∧
        (presetMatches (presetsW.getD j .null) = true →
          ∃ pe pe' : PyDict, presetsW.getD j .null = .dictV pe ∧
            ps'.getD j .null = .dictV pe' ∧
            (∀ k, k ≠ "panels" → dictGet pe' k = dictGet pe k) ∧
            ∃ le' : PyDict, dictGet pe' "panels" = some (.dictV le') ∧
              (∀ k, k ≠ "compositor" → dictGet le' k = dictGet (subDict pe "panels") k) ∧
              ∃ co' : PyDict, dictGet le' "compositor" = some (.dictV co') ∧
                (∀ k, k ≠ "blend" →
                  dictGet co' k = dictGet (subDict (subDict pe "panels") "compositor") k) ∧
                dictGet co' "blend" = some (.numV (1/2))))) ∧
    ((∀ j, j < presetsW.length → presetMatches (presetsW.getD j .null) = false) →
      mutateDoc (.dictV docW) (1/2) = .ok (.dictV docW)) ∧
    (∀ (render : PyDict → Except PyExc PyVal) (blends : List ℚ) (st : SweepState),
      dictGet (runSweep render blends st).2.files MANIFEST_PATH =
        dictGet st.files MANIFEST_PATH) :=
  claim_C7_mutation_scoped docW controlsW presetsW (1/2) rfl rfl (by decide) (by decide)

/-- Claim C10: on a document with more than one preset whose id is
`"balanced-optics"`, `mutate_manifest`'s document transformation sets `blend`
on every matching preset (not only the first), creating the `panels` mapping
and the `compositor` sub-mapping when they are absent before setting
`blend`. -/
theorem claim_C10_every_matching_preset (de ce : PyDict) (ps : List PyVal) (b : ℚ)
    (hc : dictGet de "controls" = some (.dictV ce))
    (hp : dictGet ce "presets" = some (.listV ps))
    (hshape : ∀ j, j < ps.length → isDict (ps.getD j .null) = true)
    (hpanels : ∀ j, j < ps.length → presetMatches (ps.getD j .null) = true →
      panelsShapeOk (ps.getD j .null) = true)
    (_hcount : 1 < ps.countP presetMatches) :
    ∃ ps' : List PyVal,
      mutateDoc (.dictV de) b =
        .ok (.dictV (dictSet de "controls" (.dictV (dictSet ce "presets" (.listV ps'))))) ∧
      ps'.length = ps.length ∧
      ∀ j, j < ps.length → presetMatches (ps.getD j .null) = true →
        getPath (ps'.getD j .null) ["panels", "compositor", "blend"] = some (.numV b) ∧
        (∀ pe : PyDict, ps.getD j .null = .dictV pe →
          (dictGet pe "panels" = none →
            ∃ pe' : PyDict, ps'.getD j .null = .dictV pe' ∧
              dictGet pe' "panels" =
                some (.dictV [("compositor", .dictV [("blend", .numV b)])])) ∧
          (∀ le : PyDict, dictGet pe "panels" = some (.dictV le) →
            dictGet le "compositor" = none →
            ∃ pe' le' : PyDict, ps'.getD j .null = .dictV pe' ∧
              dictGet pe' "panels" = some (.dictV le') ∧
              dictGet le' "compositor" = some (.dictV [("blend", .numV b)]))) := by
  obtain ⟨ps', hdoc, hlen, hpt⟩ := mutateDoc_pointwise de ce ps b hc hp hshape hpanels
  refine ⟨ps', hdoc, hlen, fun j hj hm => ?_⟩
  obtain ⟨pe, hgd⟩ := isDict_exists _ (hshape j hj)
  have hid : idMatches pe = true := by
    rw [hgd] at hm; simpa [presetMatches] using hm
  have hsOK : panelsShapeOk (.dictV pe) = true := by
    have hq := hpanels j hj hm
    rwa [hgd] at hq
  have hEq := mutatePreset_match b pe hid hsOK
  have hpt' := hpt j hj
  rw [hgd, hEq] at hpt'
  have hg' := (Except.ok.inj hpt').symm
  refine ⟨?_, ?_⟩
  · rw [hg']
    simp [getPath, dictGet_dictSet_self]
  · intro pe0 hpe0
    have hpe0' : pe = pe0 := PyVal.dictV.inj (hgd.symm.trans hpe0)
    subst hpe0'
    refine ⟨?_, ?_⟩
    · intro hnone
      have hsub : subDict pe "panels" = [] := by simp [subDict, hnone]
      refine ⟨_, hg', ?_⟩
      rw [dictGet_dictSet_self, hsub]
      rfl
    · intro le hple hcompnone
      have hsub : subDict pe "panels" = le := by simp [subDict, hple]
      have hsubc : subDict le "compositor" = [] := by simp [subDict, hcompnone]
      refine ⟨_, _, hg', dictGet_dictSet_self _ _ _, ?_⟩
      rw [dictGet_dictSet_self, hsub, hsubc]
      rfl

/-- Witness for C10 at the concrete two-matching-preset document. -/
theorem claim_C10_every_matching_preset_witness :
    ∃ ps' : List PyVal,
      mutateDoc (.dictV docX) (1/2) =
        .ok (.dictV (dictSet docX "controls"
          (.dictV (dictSet controlsX "presets" (.listV ps'))))) ∧
      ps'.length = presetsX.length ∧
      ∀ j, j < presetsX.length → presetMatches (presetsX.getD j .null) = true →
        getPath (ps'.getD j .null) ["panels", "compositor", "blend"] =
          some (.numV (1/2)) ∧
        (∀ pe : PyDict, presetsX.getD j .null = .dictV pe →
          (dictGet pe "panels" = none →
            ∃ pe' : PyDict, ps'.getD j .null = .dictV pe' ∧
              dictGet pe' "panels" =
                some (.dictV [("compositor", .dictV [("blend", .numV (1/2))])])) ∧
          (∀ le : PyDict, dictGet pe "panels" = some (.dictV le) →
            dictGet le "compositor" = none →
            ∃ pe' le' : PyDict, ps'.getD j .null = .dictV pe' ∧
              dictGet pe' "panels" = some (.dictV le') ∧
              dictGet le' "compositor" = some (.dictV [("blend", .numV (1/2))]))) :=
  claim_C10_every_matching_preset docX controlsX presetsX (1/2) rfl rfl
    (by decide) (by decide) (by decide)
